import Mathlib

/-
Verification of the keyboard-shortcut resolution and dispatch engine of
src/src/app/modules/gui.cpp (Aseprite GUI module).

The engine's own logic (struct Shortcut, the add_keyboard_shortcut_to_*
registration functions, the get_keyboard_shortcut_for_* lookups, the accel
accessors, get_selected_quicktool, and the kKeyDownMessage handling of
CustomizedGuiManager::onProcessMessage) is embedded directly from the source.
External collaborators that the source only calls into (ui::Accelerator,
CommandsModule, the toolbox/toolbar, the window stack, the active document)
are modelled from the spec as opaque capabilities, exactly as the spec
describes them in its sections 2 and 6.
-/

namespace AsepriteGui

/-- Key context restricting when a binding is eligible (KeyContext in the
source): Any means no restriction. -/
inductive KeyContext where
  | Any
  | Normal
  | Selection
deriving DecidableEq, Repr

/-- Shortcut::Type from gui.cpp: the four action kinds of a binding. -/
inductive ShortcutType where
  | ExecuteCommand
  | ChangeTool
  | EditorQuicktool
  | SpriteEditor
deriving DecidableEq, Repr

/-- Command parameter set (app::Params): a value object compared by
equality, here a list of key/value pairs. -/
abbrev Params := List (String × String)

/-- Modelled from the spec: the external ui::Accelerator collaborator is an
opaque chord set (a binding may accumulate several key chords); we represent
it as the list of chord strings added to it. -/
abbrev Accelerator := List String

/-- A key-down event, identified by the chord it encodes (modifiers plus key
code plus character are folded into the opaque chord, as in the spec's
`matches(modifiers, keycode, char)` capability). -/
structure KeyEvent where
  chord : String
deriving DecidableEq, Repr

/-- Modelled from the spec: Accelerator::check succeeds iff one of the stored
chords is the chord encoded by the key event. -/
def accelCheck (a : Accelerator) (ev : KeyEvent) : Bool :=
  a.contains ev.chord

/-- Modelled from the spec: Accelerator::checkFromAllegroKeyArray succeeds iff
one of the stored chords is physically held in the live keyboard snapshot. -/
def accelCheckHeld (a : Accelerator) (held : List String) : Bool :=
  a.any (fun c => held.contains c)

/-- Modelled from the spec: Accelerator::addKeysFromString appends the chord
denoted by the string to the chord set. -/
def addKeysFromString (a : Accelerator) (s : String) : Accelerator :=
  a ++ [s]

/-- Snapshot of the external application state consulted by the shortcut
engine: the command names known to CommandsModule, the active document's mask
visibility (none when there is no active document), the current tool, the
per-tool selection-ink flag (Tool::getInk(0)->isSelection()), the per-tool
toolbar visibility (ToolBar::isToolVisible), and the toolbox iteration
order. Tools are identified by natural numbers. -/
structure Env where
  knownCommands : List String
  activeDoc : Option Bool
  currentTool : Nat
  isSelectionInk : Nat → Bool
  isToolVisible : Nat → Bool
  toolbox : List Nat

/-- Modelled from the spec: CommandsModule::getCommandByName, a stable
name-to-command lookup; command identities are their names. -/
def getCommandByName (env : Env) (name : String) : Option String :=
  if env.knownCommands.contains name then some name else none

/-- get_current_keycontext from gui.cpp: Selection iff there is an active
document whose mask is visible and the current tool's ink is a selection
ink; otherwise Normal. -/
def get_current_keycontext (env : Env) : KeyContext :=
  match env.activeDoc with
  | some maskVisible =>
    if maskVisible && env.isSelectionInk env.currentTool then KeyContext.Selection
    else KeyContext.Normal
  | none => KeyContext.Normal

/-- struct Shortcut from gui.cpp: one registered binding. Exactly one of the
kind-specific payloads is meaningful, selected by `type`. -/
structure Shortcut where
  accel : Accelerator
  type : ShortcutType
  command : Option String
  keycontext : KeyContext
  tool : Option Nat
  action : String
  params : Params
deriving DecidableEq, Repr

/-- Shortcut::Shortcut(Type): empty accelerator, null payloads, context Any. -/
def newShortcut (ty : ShortcutType) : Shortcut :=
  { accel := [], type := ty, command := none, keycontext := KeyContext.Any,
    tool := none, action := "", params := [] }

/-- Shortcut::add_shortcut: add one more chord to the binding's accelerator. -/
def withChord (str : String) (s : Shortcut) : Shortcut :=
  { s with accel := addKeysFromString s.accel str }

/-- Shortcut::is_pressed: the accelerator is tested against the event; a
match is cancelled when the binding's context is neither Any nor the freshly
computed current context. -/
def Shortcut.is_pressed (s : Shortcut) (env : Env) (ev : KeyEvent) : Bool :=
  let res := accelCheck s.accel ev
  if res ∧ s.keycontext ≠ KeyContext.Any ∧ s.keycontext ≠ get_current_keycontext env then
    false
  else
    res

/-- Shortcut::is_pressed_from_key_array: the same context filter applied to
the live keyboard snapshot. -/
def Shortcut.is_pressed_from_key_array (s : Shortcut) (env : Env) (held : List String) : Bool :=
  let res := accelCheckHeld s.accel held
  if res ∧ s.keycontext ≠ KeyContext.Any ∧ s.keycontext ≠ get_current_keycontext env then
    false
  else
    res

/-- Identity test of get_keyboard_shortcut_for_command: ExecuteCommand kind,
same command, and parameter-set equality (a null params query matches an
empty stored parameter set). -/
def cmdMatch (c : String) (params : Option Params) (s : Shortcut) : Bool :=
  decide (s.type = ShortcutType.ExecuteCommand) && decide (s.command = some c) &&
    (match params with
     | none => s.params.isEmpty
     | some p => decide (s.params = p))

/-- Identity test of get_keyboard_shortcut_for_tool. -/
def toolMatch (t : Nat) (s : Shortcut) : Bool :=
  decide (s.type = ShortcutType.ChangeTool) && decide (s.tool = some t)

/-- Identity test of get_keyboard_shortcut_for_quicktool. -/
def quicktoolMatch (t : Nat) (s : Shortcut) : Bool :=
  decide (s.type = ShortcutType.EditorQuicktool) && decide (s.tool = some t)

/-- Identity test of get_keyboard_shortcut_for_spriteeditor. -/
def actionMatch (a : String) (s : Shortcut) : Bool :=
  decide (s.type = ShortcutType.SpriteEditor) && decide (s.action = a)

/-- get_keyboard_shortcut_for_command: resolves the name through the commands
module first (an unknown name finds nothing), then linearly scans for the
first binding with that command identity and parameter set. -/
def get_keyboard_shortcut_for_command (env : Env) (ss : List Shortcut)
    (name : String) (params : Option Params) : Option Shortcut :=
  match getCommandByName env name with
  | none => none
  | some c => ss.find? (cmdMatch c params)

/-- get_keyboard_shortcut_for_tool: first ChangeTool binding for the tool. -/
def get_keyboard_shortcut_for_tool (ss : List Shortcut) (t : Nat) : Option Shortcut :=
  ss.find? (toolMatch t)

/-- get_keyboard_shortcut_for_quicktool: first EditorQuicktool binding for
the tool. -/
def get_keyboard_shortcut_for_quicktool (ss : List Shortcut) (t : Nat) : Option Shortcut :=
  ss.find? (quicktoolMatch t)

/-- get_keyboard_shortcut_for_spriteeditor: first SpriteEditor binding for
the action name. -/
def get_keyboard_shortcut_for_spriteeditor (ss : List Shortcut) (a : String) : Option Shortcut :=
  ss.find? (actionMatch a)

/-- Appends the chord to the first shortcut satisfying the identity
predicate (in the source the found binding is mutated through its pointer). -/
def addChordToFirst (p : Shortcut → Bool) (str : String) : List Shortcut → List Shortcut
  | [] => []
  | s :: rest => if p s then withChord str s :: rest else s :: addChordToFirst p str rest

/-- Common shape of the add_keyboard_shortcut_to_* functions: reuse the
binding with the same identity if present, otherwise push_back a fresh one;
in both cases the chord is added to that binding's accelerator. -/
def registerShortcut (p : Shortcut → Bool) (mk : Shortcut) (str : String)
    (ss : List Shortcut) : List Shortcut :=
  match ss.find? p with
  | some _ => addChordToFirst p str ss
  | none => ss ++ [withChord str mk]

/-- add_keyboard_shortcut_to_execute_command. When the command name is
unknown the lookup always fails, so each call appends a fresh binding whose
command pointer is null, exactly as the source does. -/
def add_keyboard_shortcut_to_execute_command (env : Env) (ss : List Shortcut)
    (str name : String) (params : Option Params) (kc : KeyContext) : List Shortcut :=
  match getCommandByName env name with
  | some c =>
    registerShortcut (cmdMatch c params)
      { newShortcut ShortcutType.ExecuteCommand with
          command := some c, params := params.getD [], keycontext := kc } str ss
  | none =>
    ss ++ [withChord str
      { newShortcut ShortcutType.ExecuteCommand with
          command := none, params := params.getD [], keycontext := kc }]

/-- add_keyboard_shortcut_to_change_tool. -/
def add_keyboard_shortcut_to_change_tool (ss : List Shortcut) (str : String)
    (t : Nat) : List Shortcut :=
  registerShortcut (toolMatch t)
    { newShortcut ShortcutType.ChangeTool with tool := some t } str ss

/-- add_keyboard_shortcut_to_quicktool. -/
def add_keyboard_shortcut_to_quicktool (ss : List Shortcut) (str : String)
    (t : Nat) : List Shortcut :=
  registerShortcut (quicktoolMatch t)
    { newShortcut ShortcutType.EditorQuicktool with tool := some t } str ss

/-- add_keyboard_shortcut_to_spriteeditor. -/
def add_keyboard_shortcut_to_spriteeditor (ss : List Shortcut) (str a : String) : List Shortcut :=
  registerShortcut (actionMatch a)
    { newShortcut ShortcutType.SpriteEditor with action := a } str ss

/-- get_accel_to_execute_command: the binding's accelerator, or null. -/
def get_accel_to_execute_command (env : Env) (ss : List Shortcut) (name : String)
    (params : Option Params) : Option Accelerator :=
  (get_keyboard_shortcut_for_command env ss name params).map (fun s => s.accel)

/-- get_accel_to_change_tool. -/
def get_accel_to_change_tool (ss : List Shortcut) (t : Nat) : Option Accelerator :=
  (get_keyboard_shortcut_for_tool ss t).map (fun s => s.accel)

/-- Common body of the seven sprite-editor accel accessors. -/
def get_accel_to_spriteeditor_action (ss : List Shortcut) (a : String) : Option Accelerator :=
  (get_keyboard_shortcut_for_spriteeditor ss a).map (fun s => s.accel)

/-- SPRITEDITOR_ACTION_COPYSELECTION. -/
def SPRITEDITOR_ACTION_COPYSELECTION : String := "CopySelection"

/-- SPRITEDITOR_ACTION_SNAPTOGRID. -/
def SPRITEDITOR_ACTION_SNAPTOGRID : String := "SnapToGrid"

/-- SPRITEDITOR_ACTION_ANGLESNAP. -/
def SPRITEDITOR_ACTION_ANGLESNAP : String := "AngleSnap"

/-- SPRITEDITOR_ACTION_MAINTAINASPECT (the maintain-aspect action name). -/
def SPRITEDITOR_ACTION_MAINTAINASPECT : String := "MaintainAspectRatio"

/-- SPRITEDITOR_ACTION_LOCKAXIS. -/
def SPRITEDITOR_ACTION_LOCKAXIS : String := "LockAxis"

/-- SPRITEDITOR_ACTION_ADDSEL. -/
def SPRITEDITOR_ACTION_ADDSEL : String := "AddSelection"

/-- SPRITEDITOR_ACTION_SUBSEL. -/
def SPRITEDITOR_ACTION_SUBSEL : String := "SubtractSelection"

/-- get_accel_to_copy_selection. -/
def get_accel_to_copy_selection (ss : List Shortcut) : Option Accelerator :=
  get_accel_to_spriteeditor_action ss SPRITEDITOR_ACTION_COPYSELECTION

/-- get_accel_to_snap_to_grid. -/
def get_accel_to_snap_to_grid (ss : List Shortcut) : Option Accelerator :=
  get_accel_to_spriteeditor_action ss SPRITEDITOR_ACTION_SNAPTOGRID

/-- get_accel_to_angle_snap. -/
def get_accel_to_angle_snap (ss : List Shortcut) : Option Accelerator :=
  get_accel_to_spriteeditor_action ss SPRITEDITOR_ACTION_ANGLESNAP

/-- get_accel_to_maintain_aspect_ratio. -/
def get_accel_to_maintain_aspect (ss : List Shortcut) : Option Accelerator :=
  get_accel_to_spriteeditor_action ss SPRITEDITOR_ACTION_MAINTAINASPECT

/-- get_accel_to_lock_axis. -/
def get_accel_to_lock_axis (ss : List Shortcut) : Option Accelerator :=
  get_accel_to_spriteeditor_action ss SPRITEDITOR_ACTION_LOCKAXIS

/-- get_accel_to_add_selection. -/
def get_accel_to_add_selection (ss : List Shortcut) : Option Accelerator :=
  get_accel_to_spriteeditor_action ss SPRITEDITOR_ACTION_ADDSEL

/-- get_accel_to_subtract_selection. -/
def get_accel_to_subtract_selection (ss : List Shortcut) : Option Accelerator :=
  get_accel_to_spriteeditor_action ss SPRITEDITOR_ACTION_SUBSEL

/-- get_command_from_key_message: first ExecuteCommand binding pressed by the
event, yielding its command and stored parameter set. -/
def get_command_from_key_message (env : Env) (ss : List Shortcut) (ev : KeyEvent) :
    Option (Option String × Params) :=
  match ss.find? (fun s => decide (s.type = ShortcutType.ExecuteCommand) && s.is_pressed env ev) with
  | some s => some (s.command, s.params)
  | none => none

/-- The early-return guard of get_selected_quicktool: the current tool's ink
is a selection ink, a copy-selection binding exists, and its raw accelerator
matches the live keyboard snapshot. -/
def quickGuard (env : Env) (ss : List Shortcut) (held : List String)
    (currentTool : Option Nat) : Bool :=
  match currentTool with
  | some t =>
    env.isSelectionInk t &&
      (match get_accel_to_copy_selection ss with
       | some a => accelCheckHeld a held
       | none => false)
  | none => false

/-- The toolbox loop of get_selected_quicktool: the first tool whose
EditorQuicktool binding passes the context-filtered live-keyboard match. -/
def quicktool_scan (env : Env) (ss : List Shortcut) (held : List String) :
    List Nat → Option Nat
  | [] => none
  | t :: ts =>
    match get_keyboard_shortcut_for_quicktool ss t with
    | some s =>
      if s.is_pressed_from_key_array env held then some t
      else quicktool_scan env ss held ts
    | none => quicktool_scan env ss held ts

/-- get_selected_quicktool from gui.cpp. -/
def get_selected_quicktool (env : Env) (ss : List Shortcut) (held : List String)
    (currentTool : Option Nat) : Option Nat :=
  if quickGuard env ss held currentTool then none
  else quicktool_scan env ss held env.toolbox

/-- One window of the manager's window stack, top to bottom, with the three
flags the dispatcher queries (Window::isForeground, Window::isDesktop, and
identity with App::getMainWindow). -/
structure WindowInfo where
  isForeground : Bool
  isDesktop : Bool
  isMain : Bool
deriving DecidableEq, Repr

/-- The kKeyDownMessage entry guard: shortcuts are suppressed when the top
window exists, is not the main window, and is a foreground window. -/
def windowsAllow (ws : List WindowInfo) : Bool :=
  match ws.head? with
  | some w => !(!w.isMain && w.isForeground)
  | none => true

/-- The ExecuteCommand walk over the manager's children, top to bottom: abort
on the first foreground window, execute on reaching the main desktop window. -/
def execEligible : List WindowInfo → Bool
  | [] => false
  | w :: rest =>
    if w.isForeground then false
    else if w.isDesktop && w.isMain then true
    else execEligible rest

/-- The ChangeTool re-scan: every toolbox tool (in toolbox order) whose
ChangeTool binding is pressed by the same event. -/
def toolCandidates (env : Env) (ss : List Shortcut) (ev : KeyEvent) : List Nat :=
  env.toolbox.filter (fun t =>
    match get_keyboard_shortcut_for_tool ss t with
    | some s => s.is_pressed env ev
    | none => false)

/-- The ChangeTool tie-break of onProcessMessage: with two or more candidates
prefer the first visible non-current one; failing that, cycle to the
candidate after the current tool; failing that too (and with fewer than two
candidates), keep the hit binding's own tool. -/
def resolveChangeTool (env : Env) (ss : List Shortcut) (ev : KeyEvent)
    (initTool : Option Nat) : Option Nat :=
  let possibles := toolCandidates env ss ev
  if 2 ≤ possibles.length then
    match possibles.find? (fun t => decide (t ≠ env.currentTool) && env.isToolVisible t) with
    | some t => some t
    | none =>
      match possibles.findIdx? (fun t => decide (t = env.currentTool)) with
      | some i => possibles[(i + 1) % possibles.length]?
      | none => initTool
  else initTool

/-- Outcome of one kKeyDownMessage dispatch: ToolBar::selectTool was invoked
with the given tool (event consumed), UIContext::executeCommand was invoked
with the given command and parameter set (event consumed), or the event fell
through to default message processing unconsumed. -/
inductive DispatchResult where
  | toolSelected : Option Nat → DispatchResult
  | commandExecuted : Option String → Params → DispatchResult
  | passThrough : DispatchResult
deriving DecidableEq, Repr

/-- The shortcut scan of the kKeyDownMessage handler: the first pressed
binding is the hit; its kind decides the action, and the scan stops at it
(every kind's handling ends with a break out of the loop). -/
def scanShortcuts (env : Env) (all : List Shortcut) (ws : List WindowInfo) (ev : KeyEvent) :
    List Shortcut → DispatchResult
  | [] => DispatchResult.passThrough
  | s :: rest =>
    if s.is_pressed env ev then
      match s.type with
      | ShortcutType.ChangeTool =>
        DispatchResult.toolSelected (resolveChangeTool env all ev s.tool)
      | ShortcutType.ExecuteCommand =>
        if execEligible ws then DispatchResult.commandExecuted s.command s.params
        else DispatchResult.passThrough
      | ShortcutType.EditorQuicktool => DispatchResult.passThrough
      | ShortcutType.SpriteEditor => DispatchResult.passThrough
    else scanShortcuts env all ws ev rest

/-- The kKeyDownMessage case of CustomizedGuiManager::onProcessMessage. -/
def processKeyDown (env : Env) (ss : List Shortcut) (ws : List WindowInfo)
    (ev : KeyEvent) : DispatchResult :=
  match ws.head? with
  | some w =>
    if !w.isMain && w.isForeground then DispatchResult.passThrough
    else scanShortcuts env ss ws ev ss
  | none => scanShortcuts env ss ws ev ss

/-! Helper lemmas shared by the claim theorems. -/

/-- find? skips a prefix in which nothing satisfies the predicate. -/
theorem find?_append_of_none {α : Type} (p : α → Bool) (l1 l2 : List α)
    (h : l1.find? p = none) : (l1 ++ l2).find? p = l2.find? p := by
  induction l1 with
  | nil => rfl
  | cons a t ih =>
    cases hpa : p a with
    | true => simp [List.find?, hpa] at h
    | false =>
      simp only [List.cons_append, List.find?, hpa] at h ⊢
      exact ih h

/-- addChordToFirst skips a prefix in which nothing satisfies the predicate. -/
theorem addChordToFirst_append (p : Shortcut → Bool) (str : String) (ss l : List Shortcut)
    (h : ss.find? p = none) :
    addChordToFirst p str (ss ++ l) = ss ++ addChordToFirst p str l := by
  induction ss with
  | nil => rfl
  | cons a t ih =>
    have h' := List.find?_eq_none.1 h
    have hpa : p a = false := by simpa using h' a (by simp)
    have ht : t.find? p = none := List.find?_eq_none.2 (fun x hx => h' x (by simp [hx]))
    simp [addChordToFirst, hpa, ih ht]

/-- Registering the same identity twice, starting from a registry without it,
leaves exactly one binding for that identity, and that binding's accelerator
holds both chords. The identity predicate must ignore the accelerator and
hold of the freshly created binding. -/
theorem registerShortcut_twice (p : Shortcut → Bool) (mk1 mk2 : Shortcut)
    (str1 str2 : String) (ss : List Shortcut)
    (hp : ∀ str s, p (withChord str s) = p s)
    (hmk : p mk1 = true)
    (h0 : ss.find? p = none) :
    ((registerShortcut p mk2 str2 (registerShortcut p mk1 str1 ss)).filter p).length = 1 ∧
    ∃ s, (registerShortcut p mk2 str2 (registerShortcut p mk1 str1 ss)).find? p = some s ∧
      str1 ∈ s.accel ∧ str2 ∈ s.accel := by
  have hx : p (withChord str1 mk1) = true := by rw [hp]; exact hmk
  have hy : p (withChord str2 (withChord str1 mk1)) = true := by rw [hp, hp]; exact hmk
  have h1 : registerShortcut p mk1 str1 ss = ss ++ [withChord str1 mk1] := by
    simp [registerShortcut, h0]
  have hfind2 : (ss ++ [withChord str1 mk1]).find? p = some (withChord str1 mk1) := by
    rw [find?_append_of_none p ss _ h0]
    simp [List.find?, hx]
  have h2 : registerShortcut p mk2 str2 (ss ++ [withChord str1 mk1]) =
      ss ++ [withChord str2 (withChord str1 mk1)] := by
    simp only [registerShortcut, hfind2]
    rw [addChordToFirst_append p str2 ss _ h0]
    simp [addChordToFirst, hx]
  rw [h1, h2]
  have hfilter : ss.filter p = [] :=
    List.filter_eq_nil_iff.2 (fun x hx' => by simpa using List.find?_eq_none.1 h0 x hx')
  refine ⟨?_, withChord str2 (withChord str1 mk1), ?_, ?_, ?_⟩
  · rw [List.filter_append, hfilter]
    simp [hy]
  · rw [find?_append_of_none p ss _ h0]
    simp [List.find?, hy]
  · simp [withChord, addKeysFromString]
  · simp [withChord, addKeysFromString]

/-- The pressed test has this if-shape in both input modes. -/
theorem pressed_if_shape (a : Bool) (k cur : KeyContext) :
    ((if a = true ∧ k ≠ KeyContext.Any ∧ k ≠ cur then false else a) = true) ↔
      (a = true ∧ (k = KeyContext.Any ∨ k = cur)) := by
  by_cases hk : k = KeyContext.Any <;> by_cases hc : k = cur <;> cases a <;>
    simp [hk, hc]

/-- The first-hit scan skips a prefix of unpressed bindings. -/
theorem scanShortcuts_append (env : Env) (all : List Shortcut) (ws : List WindowInfo)
    (ev : KeyEvent) (ss1 l : List Shortcut)
    (h : ∀ u ∈ ss1, u.is_pressed env ev = false) :
    scanShortcuts env all ws ev (ss1 ++ l) = scanShortcuts env all ws ev l := by
  induction ss1 with
  | nil => rfl
  | cons a t ih =>
    have ha : a.is_pressed env ev = false := h a (by simp)
    simp only [List.cons_append, scanShortcuts, ha]
    simp only [Bool.false_eq_true, if_false]
    exact ih (fun u hu => h u (by simp [hu]))

/-- processKeyDown as the entry guard followed by the first-hit scan. -/
theorem processKeyDown_eq (env : Env) (ss : List Shortcut) (ws : List WindowInfo)
    (ev : KeyEvent) :
    processKeyDown env ss ws ev =
      if windowsAllow ws then scanShortcuts env ss ws ev ss
      else DispatchResult.passThrough := by
  cases ws with
  | nil => rfl
  | cons w rest =>
    cases hx : (!w.isMain && w.isForeground) <;>
      simp [processKeyDown, windowsAllow, hx]

/-- A suppressing top-level foreground window also makes the ExecuteCommand
walk ineligible. -/
theorem execEligible_of_windowsAllow_false (ws : List WindowInfo)
    (h : windowsAllow ws = false) : execEligible ws = false := by
  cases ws with
  | nil => simp [windowsAllow] at h
  | cons w rest =>
    simp only [windowsAllow, List.head?, Bool.not_eq_false', Bool.and_eq_true] at h
    simp [execEligible, h.2]

/-- The quick-tool toolbox loop returns the first tool whose EditorQuicktool
binding passes the context-filtered live-keyboard match. -/
theorem quicktool_scan_eq_find? (env : Env) (ss : List Shortcut) (held : List String)
    (l : List Nat) :
    quicktool_scan env ss held l =
      l.find? (fun t =>
        match get_keyboard_shortcut_for_quicktool ss t with
        | some s => s.is_pressed_from_key_array env held
        | none => false) := by
  induction l with
  | nil => rfl
  | cons t ts ih =>
    cases hlu : get_keyboard_shortcut_for_quicktool ss t with
    | some s =>
      cases hp : s.is_pressed_from_key_array env held <;>
        simp [quicktool_scan, List.find?, hlu, hp, ih]
    | none => simp [quicktool_scan, List.find?, hlu, ih]

/-! Concrete sample data used by the witnesses. -/

/-- Sample chord "Ctrl+N". -/
def chordCtrlN : String := "Ctrl+N"

/-- Sample chord "F1". -/
def chordF1 : String := "F1"

/-- Sample chord "X" shared by the ambiguous tool bindings. -/
def chordX : String := "X"

/-- Sample chord "C" of the copy-selection binding. -/
def chordC : String := "C"

/-- Sample chord "Q" of a quick-tool binding. -/
def chordQ : String := "Q"

/-- Sample command name. -/
def cmdName : String := "NewFile"

/-- A command name that is never registered. -/
def nameMissing : String := "DoesNotExist"

/-- Key event encoding exactly Ctrl+N. -/
def evW : KeyEvent := { chord := chordCtrlN }

/-- Key event encoding the shared tool chord. -/
def evX : KeyEvent := { chord := chordX }

/-- Environment with no active document and one known command. -/
def envNone : Env :=
  { knownCommands := [cmdName], activeDoc := none, currentTool := 1,
    isSelectionInk := fun _ => false, isToolVisible := fun _ => true,
    toolbox := [1, 2] }

/-- Environment with a visible selection mask and a selection-ink tool 2
as the current tool. -/
def envSel : Env :=
  { knownCommands := [], activeDoc := some true, currentTool := 2,
    isSelectionInk := fun t => decide (t = 2), isToolVisible := fun _ => true,
    toolbox := [3] }

/-- Environment in which every tool is hidden in the toolbar and the current
tool is 3 (bound to no shortcut). -/
def envHiddenCur3 : Env :=
  { knownCommands := [], activeDoc := none, currentTool := 3,
    isSelectionInk := fun _ => false, isToolVisible := fun _ => false,
    toolbox := [1, 2] }

/-- ChangeTool binding: tool 1 on the shared chord. -/
def toolShortcut1 : Shortcut :=
  { accel := [chordX], type := ShortcutType.ChangeTool, command := none,
    keycontext := KeyContext.Any, tool := some 1, action := "", params := [] }

/-- ChangeTool binding: tool 2 on the shared chord. -/
def toolShortcut2 : Shortcut :=
  { accel := [chordX], type := ShortcutType.ChangeTool, command := none,
    keycontext := KeyContext.Any, tool := some 2, action := "", params := [] }

/-- ExecuteCommand binding for the sample command on Ctrl+N. -/
def cmdShortcutW : Shortcut :=
  { accel := [chordCtrlN], type := ShortcutType.ExecuteCommand, command := some cmdName,
    keycontext := KeyContext.Any, tool := none, action := "", params := [] }

/-- EditorQuicktool binding for tool 1 on Ctrl+N. -/
def qtShortcutW : Shortcut :=
  { accel := [chordCtrlN], type := ShortcutType.EditorQuicktool, command := none,
    keycontext := KeyContext.Any, tool := some 1, action := "", params := [] }

/-- EditorQuicktool binding for tool 3 on chord Q. -/
def qtShortcut3 : Shortcut :=
  { accel := [chordQ], type := ShortcutType.EditorQuicktool, command := none,
    keycontext := KeyContext.Any, tool := some 3, action := "", params := [] }

/-- SpriteEditor copy-selection binding on chord C. -/
def copySelShortcut : Shortcut :=
  { accel := [chordC], type := ShortcutType.SpriteEditor, command := none,
    keycontext := KeyContext.Any, tool := none,
    action := SPRITEDITOR_ACTION_COPYSELECTION, params := [] }

/-- The main desktop window, not foreground. -/
def mainWin : WindowInfo := { isForeground := false, isDesktop := true, isMain := true }

/-- A modal dialog: foreground, neither desktop nor main. -/
def modalWin : WindowInfo := { isForeground := true, isDesktop := false, isMain := false }

/-! Claim theorems. -/

/-- C3: in both input modes (event-driven and polled), a binding counts as
pressed iff its accelerator matches the input and, additionally, its context
is Any or equals the freshly computed current interaction context; an
accelerator match with a failing context check yields not-pressed. -/
theorem C3_context_hard_filter :
    ∀ (env : Env) (s : Shortcut) (ev : KeyEvent) (held : List String),
      (s.is_pressed env ev = true ↔
        (accelCheck s.accel ev = true ∧
          (s.keycontext = KeyContext.Any ∨ s.keycontext = get_current_keycontext env))) ∧
      (s.is_pressed_from_key_array env held = true ↔
        (accelCheckHeld s.accel held = true ∧
          (s.keycontext = KeyContext.Any ∨ s.keycontext = get_current_keycontext env))) := by
  intro env s ev held
  constructor
  · simpa [Shortcut.is_pressed] using
      pressed_if_shape (accelCheck s.accel ev) s.keycontext (get_current_keycontext env)
  · simpa [Shortcut.is_pressed_from_key_array] using
      pressed_if_shape (accelCheckHeld s.accel held) s.keycontext (get_current_keycontext env)

/-- C6: the interaction context is Selection exactly when there is an active
document with a visible selection mask and the current tool's ink is a
selection ink; in every other case (including no active document) it is
Normal. -/
theorem C6_keycontext_characterization :
    ∀ env : Env,
      (get_current_keycontext env = KeyContext.Selection ↔
        (env.activeDoc = some true ∧ env.isSelectionInk env.currentTool = true)) ∧
      (env.activeDoc = none → get_current_keycontext env = KeyContext.Normal) ∧
      (¬(env.activeDoc = some true ∧ env.isSelectionInk env.currentTool = true) →
        get_current_keycontext env = KeyContext.Normal) := by
  intro env
  cases hdoc : env.activeDoc with
  | none => simp [get_current_keycontext, hdoc]
  | some mv =>
    cases mv <;> cases hink : env.isSelectionInk env.currentTool <;>
      simp [get_current_keycontext, hdoc, hink]

/-- Witness for C6 at concrete inputs: a visible mask with a selection ink
yields Selection, and absence of a document yields Normal. -/
theorem C6_witness :
    get_current_keycontext envSel = KeyContext.Selection ∧
    get_current_keycontext envNone = KeyContext.Normal := by
  constructor
  · exact (C6_keycontext_characterization envSel).1.mpr ⟨rfl, rfl⟩
  · exact (C6_keycontext_characterization envNone).2.1 rfl

/-- C2: when the first pressed binding is an ExecuteCommand binding, the
command executes (once, with the binding's stored parameter set) iff the
top-to-bottom walk of the window stack reaches the main desktop window
before any foreground window; otherwise the event is left unconsumed. The
entry guard (a foreground non-main top-level window) is subsumed: such a
stack also fails the walk. -/
theorem C2_command_dispatch_eligibility :
    ∀ (env : Env) (ws : List WindowInfo) (ev : KeyEvent) (ss1 ss2 : List Shortcut)
      (s : Shortcut),
      (∀ u ∈ ss1, u.is_pressed env ev = false) →
      s.is_pressed env ev = true →
      s.type = ShortcutType.ExecuteCommand →
      ((processKeyDown env (ss1 ++ s :: ss2) ws ev =
          DispatchResult.commandExecuted s.command s.params) ↔ execEligible ws = true) ∧
      (execEligible ws = false →
        processKeyDown env (ss1 ++ s :: ss2) ws ev = DispatchResult.passThrough) := by
  intro env ws ev ss1 ss2 s h1 h2 h3
  rw [processKeyDown_eq]
  by_cases hw : windowsAllow ws = true
  · rw [if_pos hw, scanShortcuts_append env _ ws ev ss1 _ h1]
    cases he : execEligible ws <;> simp [scanShortcuts, h2, h3, he]
  · have hw' : windowsAllow ws = false := by simpa using hw
    have he : execEligible ws = false := execEligible_of_windowsAllow_false ws hw'
    rw [hw']
    simp [he]

/-- Witness for C2 at concrete inputs: with only the main desktop window the
command fires with its stored parameters; with a modal dialog on top of the
main window it does not and the event passes through. -/
theorem C2_witness :
    processKeyDown envNone [cmdShortcutW] [mainWin] evW =
      DispatchResult.commandExecuted (some cmdName) [] ∧
    processKeyDown envNone [cmdShortcutW] [modalWin, mainWin] evW =
      DispatchResult.passThrough := by
  constructor
  · exact (C2_command_dispatch_eligibility envNone [mainWin] evW [] [] cmdShortcutW
      (by simp) (by decide) rfl).1.mpr (by decide)
  · exact (C2_command_dispatch_eligibility envNone [modalWin, mainWin] evW [] [] cmdShortcutW
      (by simp) (by decide) rfl).2 (by decide)

/-- C10: when the first pressed binding is of kind EditorQuicktool or
SpriteEditor, the scan stops there: no action is executed, later matching
bindings (whatever they are) are not considered, and the event falls through
unconsumed to default processing. -/
theorem C10_quicktool_hit_stops_scan :
    ∀ (env : Env) (ws : List WindowInfo) (ev : KeyEvent) (ss1 ss2 : List Shortcut)
      (s : Shortcut),
      (∀ u ∈ ss1, u.is_pressed env ev = false) →
      s.is_pressed env ev = true →
      (s.type = ShortcutType.EditorQuicktool ∨ s.type = ShortcutType.SpriteEditor) →
      processKeyDown env (ss1 ++ s :: ss2) ws ev = DispatchResult.passThrough := by
  intro env ws ev ss1 ss2 s h1 h2 h3
  rw [processKeyDown_eq]
  by_cases hw : windowsAllow ws = true
  · rw [if_pos hw, scanShortcuts_append env _ ws ev ss1 _ h1]
    rcases h3 with h3 | h3 <;> simp [scanShortcuts, h2, h3]
  · have hw' : windowsAllow ws = false := by simpa using hw
    rw [hw']
    simp

/-- Witness for C10 at a concrete input: a pressed quick-tool binding is hit
first and the event passes through, even though a later ExecuteCommand
binding matches the same chord and the main window is eligible. -/
theorem C10_witness :
    processKeyDown envNone [qtShortcutW, cmdShortcutW] [mainWin] evW =
      DispatchResult.passThrough :=
  C10_quicktool_hit_stops_scan envNone [mainWin] evW [] [cmdShortcutW] qtShortcutW
    (by simp) (by decide) (Or.inl rfl)

/-- C1: when the first pressed binding is a ChangeTool binding, dispatch
selects the tool resolved by the tie-break over the full candidate re-scan;
the candidates are exactly the toolbox tools (in toolbox order) whose
ChangeTool binding is pressed by the same event; with two or more candidates
the first visible non-current candidate wins; failing that, the candidate
cyclically after the current one (wrapping to index 0) wins; a single
candidate whose binding is the hit itself is selected directly. -/
theorem C1_changetool_ambiguity :
    ∀ (env : Env) (ws : List WindowInfo) (ev : KeyEvent) (ss1 ss2 : List Shortcut)
      (s : Shortcut),
      windowsAllow ws = true →
      (∀ u ∈ ss1, u.is_pressed env ev = false) →
      s.is_pressed env ev = true →
      s.type = ShortcutType.ChangeTool →
      (processKeyDown env (ss1 ++ s :: ss2) ws ev =
        DispatchResult.toolSelected (resolveChangeTool env (ss1 ++ s :: ss2) ev s.tool)) ∧
      (∀ t, t ∈ toolCandidates env (ss1 ++ s :: ss2) ev ↔
        (t ∈ env.toolbox ∧ ∃ u, get_keyboard_shortcut_for_tool (ss1 ++ s :: ss2) t = some u ∧
          u.is_pressed env ev = true)) ∧
      (∀ c, 2 ≤ (toolCandidates env (ss1 ++ s :: ss2) ev).length →
        (toolCandidates env (ss1 ++ s :: ss2) ev).find?
            (fun t => decide (t ≠ env.currentTool) && env.isToolVisible t) = some c →
        resolveChangeTool env (ss1 ++ s :: ss2) ev s.tool = some c) ∧
      (∀ i, 2 ≤ (toolCandidates env (ss1 ++ s :: ss2) ev).length →
        (toolCandidates env (ss1 ++ s :: ss2) ev).find?
            (fun t => decide (t ≠ env.currentTool) && env.isToolVisible t) = none →
        (toolCandidates env (ss1 ++ s :: ss2) ev).findIdx?
            (fun t => decide (t = env.currentTool)) = some i →
        resolveChangeTool env (ss1 ++ s :: ss2) ev s.tool =
          (toolCandidates env (ss1 ++ s :: ss2) ev)[(i + 1) %
            (toolCandidates env (ss1 ++ s :: ss2) ev).length]?) ∧
      (∀ t, toolCandidates env (ss1 ++ s :: ss2) ev = [t] →
        get_keyboard_shortcut_for_tool (ss1 ++ s :: ss2) t = some s →
        resolveChangeTool env (ss1 ++ s :: ss2) ev s.tool = some t) := by
  intro env ws ev ss1 ss2 s hw h1 h2 h3
  refine ⟨?_, ?_, ?_, ?_, ?_⟩
  · rw [processKeyDown_eq, if_pos hw, scanShortcuts_append env _ ws ev ss1 _ h1]
    simp [scanShortcuts, h2, h3]
  · intro t
    rw [toolCandidates, List.mem_filter]
    cases hlu : get_keyboard_shortcut_for_tool (ss1 ++ s :: ss2) t with
    | some u => simp [hlu]
    | none => simp [hlu]
  · intro c hlen hfind
    rw [resolveChangeTool]
    simp only [if_pos hlen, hfind]
  · intro i hlen hfind hidx
    rw [resolveChangeTool]
    simp only [if_pos hlen, hfind, hidx]
  · intro t hposs hlook
    have hmatch : toolMatch t s = true := List.find?_some hlook
    have hst : s.tool = some t := by
      simp only [toolMatch, Bool.and_eq_true, decide_eq_true_eq] at hmatch
      exact hmatch.2
    rw [resolveChangeTool]
    simp [hposs, hst]

/-- Environment in which every tool is hidden in the toolbar and the current
tool is 1 (among the candidates of the shared chord). -/
def envHiddenCur1 : Env :=
  { knownCommands := [], activeDoc := none, currentTool := 1,
    isSelectionInk := fun _ => false, isToolVisible := fun _ => false,
    toolbox := [1, 2] }

/-- Witness for C1 at concrete inputs: the three tie-break branches. With
visible tools 1,2 both bound to chord X and tool 1 current, tool 2 (first
visible non-current candidate) is selected; with every tool hidden and the
current tool 1 among the candidates, the candidate after it (tool 2) is
selected cyclically; with a single candidate its own tool is selected. -/
theorem C1_witness :
    processKeyDown envNone [toolShortcut1, toolShortcut2] [mainWin] evX =
      DispatchResult.toolSelected (some 2) ∧
    resolveChangeTool envHiddenCur1 [toolShortcut1, toolShortcut2] evX (some 1) = some 2 ∧
    resolveChangeTool envNone [toolShortcut1] evX (some 1) = some 1 := by
  refine ⟨?_, ?_, ?_⟩
  · have h := C1_changetool_ambiguity envNone [mainWin] evX [] [toolShortcut2] toolShortcut1
      (by decide) (by simp) (by decide) rfl
    show processKeyDown envNone ([] ++ toolShortcut1 :: [toolShortcut2]) [mainWin] evX =
      DispatchResult.toolSelected (some 2)
    rw [h.1, h.2.2.1 2 (by decide) (by decide)]
  · have h := C1_changetool_ambiguity envHiddenCur1 [mainWin] evX [] [toolShortcut2]
      toolShortcut1 (by decide) (by simp) (by decide) rfl
    have h4 := h.2.2.2.1 0 (by decide) (by decide) (by decide)
    show resolveChangeTool envHiddenCur1 ([] ++ toolShortcut1 :: [toolShortcut2]) evX
      toolShortcut1.tool = some 2
    rw [h4]
    decide
  · have h := C1_changetool_ambiguity envNone [mainWin] evX [] [] toolShortcut1
      (by decide) (by simp) (by decide) rfl
    have h5 := h.2.2.2.2 1 (by decide) (by decide)
    show resolveChangeTool envNone ([] ++ toolShortcut1 :: []) evX toolShortcut1.tool = some 1
    exact h5

/-- C8 counterexample: two hidden tools 1,2 share chord X while the current
tool is 3 (not a candidate). The claim says dispatch performs no tool
selection, but the source still calls ToolBar::selectTool with the hit
binding's own tool: dispatch yields toolSelected 1, a selection of a tool
different from the current tool 3, not a pass-through no-op. -/
theorem C8_counterexample :
    processKeyDown envHiddenCur3 [toolShortcut1, toolShortcut2] [mainWin] evX =
      DispatchResult.toolSelected (some 1) ∧
    envHiddenCur3.currentTool = 3 ∧
    DispatchResult.toolSelected (some 1) ≠ DispatchResult.passThrough := by
  refine ⟨by decide, rfl, by decide⟩

/-- C8 (amended): when two or more tool bindings match the chord, no
candidate is a visible tool different from the current tool, and the current
tool is not among the candidates, dispatch still consumes the event and
invokes tool selection with the hit binding's own tool (select_this_tool
keeps its initialization); the active tool is not left unchanged. -/
theorem C8_fallback_selects_hit_tool :
    ∀ (env : Env) (ws : List WindowInfo) (ev : KeyEvent) (ss1 ss2 : List Shortcut)
      (s : Shortcut),
      windowsAllow ws = true →
      (∀ u ∈ ss1, u.is_pressed env ev = false) →
      s.is_pressed env ev = true →
      s.type = ShortcutType.ChangeTool →
      2 ≤ (toolCandidates env (ss1 ++ s :: ss2) ev).length →
      (toolCandidates env (ss1 ++ s :: ss2) ev).find?
          (fun t => decide (t ≠ env.currentTool) && env.isToolVisible t) = none →
      (toolCandidates env (ss1 ++ s :: ss2) ev).findIdx?
          (fun t => decide (t = env.currentTool)) = none →
      processKeyDown env (ss1 ++ s :: ss2) ws ev = DispatchResult.toolSelected s.tool := by
  intro env ws ev ss1 ss2 s hw h1 h2 h3 hlen hfind hidx
  rw [processKeyDown_eq, if_pos hw, scanShortcuts_append env _ ws ev ss1 _ h1]
  simp only [scanShortcuts, h2, if_pos rfl, h3]
  rw [resolveChangeTool]
  simp only [if_pos hlen, hfind, hidx]
  simp

/-- Witness for C8 (amended) at the counterexample input: the hit binding's
tool 1 is selected. -/
theorem C8_witness :
    processKeyDown envHiddenCur3 ([] ++ toolShortcut1 :: [toolShortcut2]) [mainWin] evX =
      DispatchResult.toolSelected toolShortcut1.tool :=
  C8_fallback_selects_hit_tool envHiddenCur3 [mainWin] evX [] [toolShortcut2] toolShortcut1
    (by decide) (by simp) (by decide) rfl (by decide) (by decide) (by decide)

/-- C5: the quick-tool polling query returns none immediately when the
current tool's ink is a selection ink and the copy-selection binding's raw
live-keyboard accelerator match succeeds (regardless of any quick-tool chord
held simultaneously); otherwise it scans the toolbox in order and returns
the first tool whose EditorQuicktool binding passes the context-filtered
live-keyboard match, or none. -/
theorem C5_quicktool_query :
    ∀ (env : Env) (ss : List Shortcut) (held : List String) (curTool : Option Nat),
      (∀ t a, curTool = some t → env.isSelectionInk t = true →
        get_accel_to_copy_selection ss = some a → accelCheckHeld a held = true →
        get_selected_quicktool env ss held curTool = none) ∧
      (quickGuard env ss held curTool = false →
        get_selected_quicktool env ss held curTool =
          env.toolbox.find? (fun t =>
            match get_keyboard_shortcut_for_quicktool ss t with
            | some s => s.is_pressed_from_key_array env held
            | none => false)) := by
  intro env ss held curTool
  constructor
  · intro t a ht hsel hcopy hheld
    have hguard : quickGuard env ss held curTool = true := by
      rw [ht]
      simp [quickGuard, hsel, hcopy, hheld]
    simp [get_selected_quicktool, hguard]
  · intro hguard
    rw [get_selected_quicktool]
    simp only [hguard, Bool.false_eq_true, if_false]
    exact quicktool_scan_eq_find? env ss held env.toolbox

/-- Witness for C5 at concrete inputs: with the selection-ink tool 2 current
and both the copy-selection chord and tool 3's quick-tool chord held, the
query returns none; with only the quick-tool chord held the guard is off and
the toolbox scan returns tool 3. -/
theorem C5_witness :
    get_selected_quicktool envSel [copySelShortcut, qtShortcut3] [chordC, chordQ]
      (some 2) = none ∧
    get_selected_quicktool envSel [copySelShortcut, qtShortcut3] [chordQ] (some 2) = some 3 := by
  constructor
  · exact (C5_quicktool_query envSel [copySelShortcut, qtShortcut3] [chordC, chordQ]
      (some 2)).1 2 [chordC] rfl (by decide) (by decide) (by decide)
  · have h := (C5_quicktool_query envSel [copySelShortcut, qtShortcut3] [chordQ]
      (some 2)).2 (by decide)
    rw [h]
    decide

/-- The command identity predicate holds of a freshly created command
binding. -/
theorem cmdMatch_mk (c : String) (params : Option Params) (kc : KeyContext) :
    cmdMatch c params
      { newShortcut ShortcutType.ExecuteCommand with
          command := some c, params := params.getD [], keycontext := kc } = true := by
  cases params <;> simp [cmdMatch, newShortcut]

/-- The tool identity predicate holds of a freshly created ChangeTool
binding. -/
theorem toolMatch_mk (t : Nat) :
    toolMatch t { newShortcut ShortcutType.ChangeTool with tool := some t } = true := by
  simp [toolMatch, newShortcut]

/-- The tool identity predicate holds of a freshly created EditorQuicktool
binding. -/
theorem quicktoolMatch_mk (t : Nat) :
    quicktoolMatch t { newShortcut ShortcutType.EditorQuicktool with tool := some t } = true := by
  simp [quicktoolMatch, newShortcut]

/-- The action identity predicate holds of a freshly created SpriteEditor
binding. -/
theorem actionMatch_mk (a : String) :
    actionMatch a { newShortcut ShortcutType.SpriteEditor with action := a } = true := by
  simp [actionMatch, newShortcut]

/-- C4: registration is idempotent per action identity for every kind:
registering the same identity twice (with possibly different chords and, for
commands, possibly different contexts on the second call) into a registry
without that identity leaves exactly one binding for it, and that binding's
accelerator holds both chords. -/
theorem C4_registration_idempotent :
    ∀ (env : Env) (ss : List Shortcut) (name c : String) (params : Option Params)
      (kc1 kc2 : KeyContext) (str1 str2 : String) (t : Nat) (act : String),
      (getCommandByName env name = some c →
        ss.find? (cmdMatch c params) = none →
        (((add_keyboard_shortcut_to_execute_command env
              (add_keyboard_shortcut_to_execute_command env ss str1 name params kc1)
              str2 name params kc2).filter (cmdMatch c params)).length = 1 ∧
          ∃ s, get_keyboard_shortcut_for_command env
              (add_keyboard_shortcut_to_execute_command env
                (add_keyboard_shortcut_to_execute_command env ss str1 name params kc1)
                str2 name params kc2) name params = some s ∧
            str1 ∈ s.accel ∧ str2 ∈ s.accel)) ∧
      (ss.find? (toolMatch t) = none →
        (((add_keyboard_shortcut_to_change_tool
              (add_keyboard_shortcut_to_change_tool ss str1 t) str2 t).filter
                (toolMatch t)).length = 1 ∧
          ∃ s, get_keyboard_shortcut_for_tool
              (add_keyboard_shortcut_to_change_tool
                (add_keyboard_shortcut_to_change_tool ss str1 t) str2 t) t = some s ∧
            str1 ∈ s.accel ∧ str2 ∈ s.accel)) ∧
      (ss.find? (quicktoolMatch t) = none →
        (((add_keyboard_shortcut_to_quicktool
              (add_keyboard_shortcut_to_quicktool ss str1 t) str2 t).filter
                (quicktoolMatch t)).length = 1 ∧
          ∃ s, get_keyboard_shortcut_for_quicktool
              (add_keyboard_shortcut_to_quicktool
                (add_keyboard_shortcut_to_quicktool ss str1 t) str2 t) t = some s ∧
            str1 ∈ s.accel ∧ str2 ∈ s.accel)) ∧
      (ss.find? (actionMatch act) = none →
        (((add_keyboard_shortcut_to_spriteeditor
              (add_keyboard_shortcut_to_spriteeditor ss str1 act) str2 act).filter
                (actionMatch act)).length = 1 ∧
          ∃ s, get_keyboard_shortcut_for_spriteeditor
              (add_keyboard_shortcut_to_spriteeditor
                (add_keyboard_shortcut_to_spriteeditor ss str1 act) str2 act) act = some s ∧
            str1 ∈ s.accel ∧ str2 ∈ s.accel)) := by
  intro env ss name c params kc1 kc2 str1 str2 t act
  refine ⟨?_, ?_, ?_, ?_⟩
  · intro hname h0
    have h := registerShortcut_twice (cmdMatch c params)
      { newShortcut ShortcutType.ExecuteCommand with
          command := some c, params := params.getD [], keycontext := kc1 }
      { newShortcut ShortcutType.ExecuteCommand with
          command := some c, params := params.getD [], keycontext := kc2 }
      str1 str2 ss (fun _ _ => rfl) (cmdMatch_mk c params kc1) h0
    simp only [add_keyboard_shortcut_to_execute_command, hname,
      get_keyboard_shortcut_for_command]
    exact h
  · intro h0
    exact registerShortcut_twice (toolMatch t)
      { newShortcut ShortcutType.ChangeTool with tool := some t }
      { newShortcut ShortcutType.ChangeTool with tool := some t }
      str1 str2 ss (fun _ _ => rfl) (toolMatch_mk t) h0
  · intro h0
    exact registerShortcut_twice (quicktoolMatch t)
      { newShortcut ShortcutType.EditorQuicktool with tool := some t }
      { newShortcut ShortcutType.EditorQuicktool with tool := some t }
      str1 str2 ss (fun _ _ => rfl) (quicktoolMatch_mk t) h0
  · intro h0
    exact registerShortcut_twice (actionMatch act)
      { newShortcut ShortcutType.SpriteEditor with action := act }
      { newShortcut ShortcutType.SpriteEditor with action := act }
      str1 str2 ss (fun _ _ => rfl) (actionMatch_mk act) h0

/-- Witness for C4 at concrete inputs: each kind registered twice, with two
chords, into an empty registry keeps one binding recognizing both chords. -/
theorem C4_witness :
    (((add_keyboard_shortcut_to_execute_command envNone
          (add_keyboard_shortcut_to_execute_command envNone [] chordCtrlN cmdName none
            KeyContext.Any)
          chordF1 cmdName none KeyContext.Any).filter (cmdMatch cmdName none)).length = 1 ∧
      ∃ s, get_keyboard_shortcut_for_command envNone
          (add_keyboard_shortcut_to_execute_command envNone
            (add_keyboard_shortcut_to_execute_command envNone [] chordCtrlN cmdName none
              KeyContext.Any)
            chordF1 cmdName none KeyContext.Any) cmdName none = some s ∧
        chordCtrlN ∈ s.accel ∧ chordF1 ∈ s.accel) ∧
    (((add_keyboard_shortcut_to_change_tool
          (add_keyboard_shortcut_to_change_tool [] chordCtrlN 7) chordF1 7).filter
            (toolMatch 7)).length = 1 ∧
      ∃ s, get_keyboard_shortcut_for_tool
          (add_keyboard_shortcut_to_change_tool
            (add_keyboard_shortcut_to_change_tool [] chordCtrlN 7) chordF1 7) 7 = some s ∧
        chordCtrlN ∈ s.accel ∧ chordF1 ∈ s.accel) ∧
    (((add_keyboard_shortcut_to_quicktool
          (add_keyboard_shortcut_to_quicktool [] chordCtrlN 7) chordF1 7).filter
            (quicktoolMatch 7)).length = 1 ∧
      ∃ s, get_keyboard_shortcut_for_quicktool
          (add_keyboard_shortcut_to_quicktool
            (add_keyboard_shortcut_to_quicktool [] chordCtrlN 7) chordF1 7) 7 = some s ∧
        chordCtrlN ∈ s.accel ∧ chordF1 ∈ s.accel) ∧
    (((add_keyboard_shortcut_to_spriteeditor
          (add_keyboard_shortcut_to_spriteeditor [] chordCtrlN
            SPRITEDITOR_ACTION_COPYSELECTION) chordF1
          SPRITEDITOR_ACTION_COPYSELECTION).filter
            (actionMatch SPRITEDITOR_ACTION_COPYSELECTION)).length = 1 ∧
      ∃ s, get_keyboard_shortcut_for_spriteeditor
          (add_keyboard_shortcut_to_spriteeditor
            (add_keyboard_shortcut_to_spriteeditor [] chordCtrlN
              SPRITEDITOR_ACTION_COPYSELECTION) chordF1
            SPRITEDITOR_ACTION_COPYSELECTION) SPRITEDITOR_ACTION_COPYSELECTION = some s ∧
        chordCtrlN ∈ s.accel ∧ chordF1 ∈ s.accel) := by
  have h := C4_registration_idempotent envNone [] cmdName cmdName none KeyContext.Any
    KeyContext.Any chordCtrlN chordF1 7 SPRITEDITOR_ACTION_COPYSELECTION
  exact ⟨h.1 (by decide) rfl, h.2.1 rfl, h.2.2.1 rfl, h.2.2.2 rfl⟩

/-- C7: round-trip. After registering the known command "NewFile" on chord
Ctrl+N with no parameters and context Any into an empty registry, resolving
any key event that encodes exactly Ctrl+N yields the command "NewFile" with
an empty parameter set. -/
theorem C7_roundtrip :
    ∀ (env : Env) (ev : KeyEvent),
      getCommandByName env cmdName = some cmdName →
      ev.chord = chordCtrlN →
      get_command_from_key_message env
        (add_keyboard_shortcut_to_execute_command env [] chordCtrlN cmdName none
          KeyContext.Any) ev = some (some cmdName, []) := by
  intro env ev hname hev
  simp only [add_keyboard_shortcut_to_execute_command, hname, registerShortcut, List.find?,
    List.nil_append]
  simp [get_command_from_key_message, List.find?, withChord, newShortcut, addKeysFromString,
    Shortcut.is_pressed, accelCheck, hev]

/-- Witness for C7 at concrete inputs. -/
theorem C7_witness :
    get_command_from_key_message envNone
      (add_keyboard_shortcut_to_execute_command envNone [] chordCtrlN cmdName none
        KeyContext.Any) evW = some (some cmdName, []) :=
  C7_roundtrip envNone evW (by decide) rfl

/-- C9: absence is never an error. An unknown or unregistered command, an
unregistered tool (for either tool kind), and an unregistered sprite-editor
action all make every lookup and accel accessor return none; with nothing
registered, event resolution returns none, key-down dispatch passes the
event through unconsumed, and the quick-tool query returns none. -/
theorem C9_absence_is_not_error :
    ∀ (env : Env) (ss : List Shortcut) (name : String) (params : Option Params)
      (t : Nat) (act : String) (ws : List WindowInfo) (ev : KeyEvent)
      (held : List String) (ct : Option Nat),
      (getCommandByName env name = none →
        get_keyboard_shortcut_for_command env ss name params = none ∧
        get_accel_to_execute_command env ss name params = none) ∧
      (∀ c, getCommandByName env name = some c →
        (∀ s ∈ ss, cmdMatch c params s = false) →
        get_keyboard_shortcut_for_command env ss name params = none ∧
        get_accel_to_execute_command env ss name params = none) ∧
      ((∀ s ∈ ss, toolMatch t s = false) →
        get_keyboard_shortcut_for_tool ss t = none ∧
        get_accel_to_change_tool ss t = none) ∧
      ((∀ s ∈ ss, quicktoolMatch t s = false) →
        get_keyboard_shortcut_for_quicktool ss t = none) ∧
      ((∀ s ∈ ss, actionMatch act s = false) →
        get_keyboard_shortcut_for_spriteeditor ss act = none ∧
        get_accel_to_spriteeditor_action ss act = none) ∧
      ((∀ s ∈ ss, actionMatch SPRITEDITOR_ACTION_COPYSELECTION s = false) →
        get_accel_to_copy_selection ss = none) ∧
      get_command_from_key_message env [] ev = none ∧
      processKeyDown env [] ws ev = DispatchResult.passThrough ∧
      get_selected_quicktool env [] held ct = none := by
  intro env ss name params t act ws ev held ct
  refine ⟨?_, ?_, ?_, ?_, ?_, ?_, rfl, ?_, ?_⟩
  · intro h
    constructor
    · simp [get_keyboard_shortcut_for_command, h]
    · simp [get_accel_to_execute_command, get_keyboard_shortcut_for_command, h]
  · intro c hc hnone
    have hf : ss.find? (cmdMatch c params) = none :=
      List.find?_eq_none.2 (fun x hx => by simp [hnone x hx])
    constructor
    · simp [get_keyboard_shortcut_for_command, hc, hf]
    · simp [get_accel_to_execute_command, get_keyboard_shortcut_for_command, hc, hf]
  · intro hnone
    have hf : ss.find? (toolMatch t) = none :=
      List.find?_eq_none.2 (fun x hx => by simp [hnone x hx])
    exact ⟨hf, by simp [get_accel_to_change_tool, get_keyboard_shortcut_for_tool, hf]⟩
  · intro hnone
    exact List.find?_eq_none.2 (fun x hx => by simp [hnone x hx])
  · intro hnone
    have hf : ss.find? (actionMatch act) = none :=
      List.find?_eq_none.2 (fun x hx => by simp [hnone x hx])
    exact ⟨hf, by simp [get_accel_to_spriteeditor_action, get_keyboard_shortcut_for_spriteeditor, hf]⟩
  · intro hnone
    have hf : ss.find? (actionMatch SPRITEDITOR_ACTION_COPYSELECTION) = none :=
      List.find?_eq_none.2 (fun x hx => by simp [hnone x hx])
    simp [get_accel_to_copy_selection, get_accel_to_spriteeditor_action,
      get_keyboard_shortcut_for_spriteeditor, hf]
  · rw [processKeyDown_eq]
    simp [scanShortcuts]
  · have hg : quickGuard env [] held ct = false := by
      cases ct <;> simp [quickGuard, get_accel_to_copy_selection,
        get_accel_to_spriteeditor_action, get_keyboard_shortcut_for_spriteeditor, List.find?]
    have hscan : quicktool_scan env [] held env.toolbox = none := by
      rw [quicktool_scan_eq_find?]
      exact List.find?_eq_none.2
        (fun x hx => by simp [get_keyboard_shortcut_for_quicktool, List.find?])
    simp [get_selected_quicktool, hg, hscan]

/-- Witness for C9 at concrete inputs: a registry holding only a ChangeTool
binding for tool 1 answers none on every other lookup and accessor, and an
empty registry makes dispatch a pass-through and the quick-tool query none. -/
theorem C9_witness :
    get_keyboard_shortcut_for_command envNone [toolShortcut1] nameMissing none = none ∧
    get_accel_to_execute_command envNone [toolShortcut1] nameMissing none = none ∧
    get_keyboard_shortcut_for_tool [toolShortcut1] 9 = none ∧
    get_accel_to_change_tool [toolShortcut1] 9 = none ∧
    get_keyboard_shortcut_for_quicktool [toolShortcut1] 1 = none ∧
    get_accel_to_copy_selection [toolShortcut1] = none ∧
    get_command_from_key_message envNone [] evW = none ∧
    processKeyDown envNone [] [mainWin] evW = DispatchResult.passThrough ∧
    get_selected_quicktool envNone [] [chordX] (some 1) = none := by
  have h := C9_absence_is_not_error envNone [toolShortcut1] nameMissing none 9
    SPRITEDITOR_ACTION_SNAPTOGRID [mainWin] evW [chordX] (some 1)
  exact ⟨(h.1 (by decide)).1, (h.1 (by decide)).2, (h.2.2.1 (by decide)).1,
    (h.2.2.1 (by decide)).2, h.2.2.2.1 (by decide), h.2.2.2.2.2.1 (by decide),
    h.2.2.2.2.2.2.1, h.2.2.2.2.2.2.2.1, h.2.2.2.2.2.2.2.2⟩

end AsepriteGui
